import Mathlib

/-!
# Ec2CdkStack: the stack assembled by `lib/ec2-cdk-stack.js`

The source is one constructor, `Ec2CdkStack.constructor(scope, id, props)`, a
straight-line sequence of calls into `aws-cdk-lib` plus one `readFileSync`.

The embedding is explicit state passing.  `Stack` is the stack under
construction (the JavaScript `this`); every construct declared in it is kept
under its construct id, and a JavaScript object reference to a construct is
that id.  Each SDK call used by the source is a function that records what
the call was given: constructors append a construct, the `add...` methods
extend the construct the handle names.  SDK calls always succeed; the file
read is the only step with a failing branch, and an exception leaves the
stack as it was when the exception was raised.
-/

namespace CDK

/-! ## aws-cdk-lib/aws-iam -/

/-- Construct ids double as object references inside one stack. -/
abbrev ConstructId := String

/-- Principal `new ServicePrincipal(service)`. -/
structure ServicePrincipal where
  service : String
  deriving DecidableEq, Repr

/-- Managed policy handle as returned by `ManagedPolicy.fromAwsManagedPolicyName`. -/
structure ManagedPolicy where
  managedPolicyName : String
  deriving DecidableEq, Repr

/-- Static factory `ManagedPolicy.fromAwsManagedPolicyName(name)`. -/
def ManagedPolicy.fromAwsManagedPolicyName (managedPolicyName : String) : ManagedPolicy :=
  { managedPolicyName := managedPolicyName }

/-- Props object of `new Role(...)`, with the one field the source sets. -/
structure RoleProps where
  assumedBy : ServicePrincipal
  deriving DecidableEq, Repr

/-- Role construct: its props and the managed policies attached so far, oldest first. -/
structure Role where
  id : ConstructId
  assumedBy : ServicePrincipal
  managedPolicies : List ManagedPolicy
  deriving DecidableEq, Repr

/-! ## aws-cdk-lib/aws-ec2 -/

/-- Enumeration `SubnetType`. -/
inductive SubnetType
  | PRIVATE_ISOLATED
  | PRIVATE_WITH_EGRESS
  | PUBLIC
  deriving DecidableEq, Repr

/-- One entry of `subnetConfiguration`. -/
structure SubnetConfiguration where
  cidrMask : Nat
  name : String
  subnetType : SubnetType
  deriving DecidableEq, Repr

/-- Props object of `new Vpc(...)`, with the one field the source sets. -/
structure VpcProps where
  subnetConfiguration : List SubnetConfiguration
  deriving DecidableEq, Repr

/-- Vpc construct. -/
structure Vpc where
  id : ConstructId
  subnetConfiguration : List SubnetConfiguration
  deriving DecidableEq, Repr

/-- Peers of a security group rule, built by the static factories of `Peer`. -/
inductive Peer
  | anyIpv4
  | anyIpv6
  | ipv4 (cidrIp : String)
  | ipv6 (cidrIp : String)
  deriving DecidableEq, Repr

/-- Port ranges of a security group rule, built by the static factories of `Port`. -/
inductive Port
  | tcp (port : Nat)
  | udp (port : Nat)
  | tcpRange (startPort endPort : Nat)
  | allTcp
  | allTraffic
  deriving DecidableEq, Repr

/-- Props object of `new SecurityGroup(...)`. -/
structure SecurityGroupProps where
  vpc : ConstructId
  description : String
  allowAllOutbound : Bool
  deriving DecidableEq, Repr

/-- SecurityGroup construct with the ingress rules added so far, oldest first. -/
structure SecurityGroup where
  id : ConstructId
  vpc : ConstructId
  description : String
  allowAllOutbound : Bool
  ingressRules : List (Peer × Port)
  deriving DecidableEq, Repr

/-- Enumeration `AmazonLinuxGeneration`. -/
inductive AmazonLinuxGeneration
  | AMAZON_LINUX
  | AMAZON_LINUX_2
  | AMAZON_LINUX_2022
  | AMAZON_LINUX_2023
  deriving DecidableEq, Repr

/-- Enumeration `AmazonLinuxCpuType`. -/
inductive AmazonLinuxCpuType
  | ARM_64
  | X86_64
  deriving DecidableEq, Repr

/-- Machine image `new AmazonLinuxImage({ generation, cpuType })`; it is a plain
object, not a construct of the stack. -/
structure AmazonLinuxImage where
  generation : AmazonLinuxGeneration
  cpuType : AmazonLinuxCpuType
  deriving DecidableEq, Repr

/-- Enumeration `InstanceClass` (the members relevant here). -/
inductive InstanceClass
  | T2
  | T3
  | T3A
  | T4G
  deriving DecidableEq, Repr

/-- Enumeration `InstanceSize` (the members relevant here). -/
inductive InstanceSize
  | NANO
  | MICRO
  | SMALL
  | MEDIUM
  | LARGE
  deriving DecidableEq, Repr

/-- Instance type as built by `InstanceType.of`. -/
structure InstanceType where
  instanceClass : InstanceClass
  instanceSize : InstanceSize
  deriving DecidableEq, Repr

/-- Static factory `InstanceType.of(instanceClass, instanceSize)`. -/
def InstanceType.of (instanceClass : InstanceClass) (instanceSize : InstanceSize) : InstanceType :=
  { instanceClass := instanceClass, instanceSize := instanceSize }

/-- Props object of `new Instance(...)`. -/
structure InstanceProps where
  vpc : ConstructId
  instanceType : InstanceType
  machineImage : AmazonLinuxImage
  securityGroup : ConstructId
  role : ConstructId
  deriving DecidableEq, Repr

/-- Instance construct: its props, the user data added so far (oldest first)
and the tags put on it (oldest first). -/
structure Instance where
  id : ConstructId
  vpc : ConstructId
  instanceType : InstanceType
  machineImage : AmazonLinuxImage
  securityGroup : ConstructId
  role : ConstructId
  userData : List String
  tags : List (String × String)
  deriving DecidableEq, Repr

/-! ## aws-cdk-lib (core) -/

/-- Values that can be exported: a literal, or a deploy-time attribute of a
construct of the stack. -/
inductive Value
  | literal (text : String)
  | getAtt (construct : ConstructId) (attributeName : String)
  deriving DecidableEq, Repr

/-- Getter `instance.instancePublicIp`: the deploy-time public IP attribute. -/
def Instance.instancePublicIp (instance_ : ConstructId) : Value :=
  Value.getAtt instance_ "PublicIp"

/-- Output construct `new CfnOutput(this, id, { value })`. -/
structure CfnOutput where
  id : ConstructId
  value : Value
  deriving DecidableEq, Repr

/-- Secret values, built by the static factories of `SecretValue`: a reference
resolved at deploy time (`secretsManager`, `ssmSecure`) or the secret itself
written in the template (`plainText`). -/
inductive SecretValue
  | secretsManager (secretId : String)
  | ssmSecure (parameterName : String)
  | plainText (secret : String)
  deriving DecidableEq, Repr

/-- Whether a secret value carries the secret itself instead of a reference. -/
def SecretValue.isLiteral : SecretValue → Bool
  | .plainText _ => true
  | _ => false

/-- Props of a stack (the fields of `StackProps` that identify it). -/
structure StackProps where
  stackName : Option String
  description : Option String
  account : Option String
  region : Option String
  deriving DecidableEq, Repr

/-- Parent construct a stack is created under, named by its path. -/
structure Construct where
  path : List String
  deriving DecidableEq, Repr

/-! ## aws-cdk-lib/aws-codepipeline, -actions, aws-codebuild, aws-codedeploy -/

/-- Artifact `new Artifact()`: unnamed, so told apart by object identity only;
`serial` is that identity (the order of creation in the constructor). -/
structure Artifact where
  serial : Nat
  deriving DecidableEq, Repr

/-- Props of `new GitHubSourceAction(...)`. -/
structure GitHubSourceActionProps where
  actionName : String
  oauthToken : SecretValue
  owner : String
  repo : String
  branch : String
  output : Artifact
  deriving DecidableEq, Repr

/-- Props of `new CodeBuildAction(...)`. -/
structure CodeBuildActionProps where
  actionName : String
  project : ConstructId
  input : Artifact
  outputs : List Artifact
  deriving DecidableEq, Repr

/-- Props of `new CodeDeployServerDeployAction(...)`. -/
structure CodeDeployServerDeployActionProps where
  actionName : String
  input : Artifact
  deploymentGroup : ConstructId
  deriving DecidableEq, Repr

/-- Pipeline actions, one constructor per action class the source instantiates. -/
inductive Action
  | GitHubSourceAction (props : GitHubSourceActionProps)
  | CodeBuildAction (props : CodeBuildActionProps)
  | CodeDeployServerDeployAction (props : CodeDeployServerDeployActionProps)
  deriving DecidableEq, Repr

/-- Name of an action, whatever its class. -/
def Action.actionName : Action → String
  | .GitHubSourceAction props => props.actionName
  | .CodeBuildAction props => props.actionName
  | .CodeDeployServerDeployAction props => props.actionName

/-- Props of `pipeline.addStage(...)`. -/
structure StageOptions where
  stageName : String
  deriving DecidableEq, Repr

/-- Stage of a pipeline with the actions added so far, oldest first. -/
structure Stage where
  stageName : String
  actions : List Action
  deriving DecidableEq, Repr

/-- Props of `new Pipeline(...)`. -/
structure PipelineProps where
  pipelineName : String
  crossAccountKeys : Bool
  deriving DecidableEq, Repr

/-- Pipeline construct with the stages added so far, oldest first. -/
structure Pipeline where
  id : ConstructId
  pipelineName : String
  crossAccountKeys : Bool
  stages : List Stage
  deriving DecidableEq, Repr

/-- Reference to a stage as returned by `pipeline.addStage`. -/
structure StageRef where
  pipeline : ConstructId
  stageName : String
  deriving DecidableEq, Repr

/-- Enumeration of the static members of `LinuxBuildImage` (the relevant ones). -/
inductive LinuxBuildImage
  | STANDARD_7_0
  | AMAZON_LINUX_2_4
  | AMAZON_LINUX_2_5
  deriving DecidableEq, Repr

/-- Props of `new PipelineProject(...)`: `environment.buildImage`. -/
structure PipelineProjectProps where
  buildImage : LinuxBuildImage
  deriving DecidableEq, Repr

/-- PipelineProject construct. -/
structure PipelineProject where
  id : ConstructId
  buildImage : LinuxBuildImage
  deriving DecidableEq, Repr

/-- Props of `new ServerApplication(...)`. -/
structure ServerApplicationProps where
  applicationName : String
  deriving DecidableEq, Repr

/-- ServerApplication construct. -/
structure ServerApplication where
  id : ConstructId
  applicationName : String
  deriving DecidableEq, Repr

/-- Tag set `new InstanceTagSet(...groups)`: each group maps a tag key to the
values accepted for it. -/
structure InstanceTagSet where
  groups : List (List (String × List String))
  deriving DecidableEq, Repr

/-- Props of `new ServerDeploymentGroup(...)`. -/
structure ServerDeploymentGroupProps where
  application : ConstructId
  deploymentGroupName : String
  installAgent : Bool
  ec2InstanceTags : InstanceTagSet
  deriving DecidableEq, Repr

/-- ServerDeploymentGroup construct. -/
structure ServerDeploymentGroup where
  id : ConstructId
  application : ConstructId
  deploymentGroupName : String
  installAgent : Bool
  ec2InstanceTags : InstanceTagSet
  deriving DecidableEq, Repr

/-! ## The stack under construction -/

/-- Stack under construction: what `super(scope, id, props)` was given and the
constructs declared in it so far, each kind in order of declaration. -/
structure Stack where
  scope : Construct
  id : String
  props : Option StackProps
  roles : List Role
  vpcs : List Vpc
  securityGroups : List SecurityGroup
  instances : List Instance
  pipelines : List Pipeline
  projects : List PipelineProject
  applications : List ServerApplication
  deploymentGroups : List ServerDeploymentGroup
  outputs : List CfnOutput
  deriving DecidableEq, Repr

/-- Call `super(scope, id, props)`: a stack with nothing declared in it. -/
def Stack.super (scope : Construct) (id : String) (props : Option StackProps) : Stack :=
  { scope := scope, id := id, props := props, roles := [], vpcs := [], securityGroups := [],
    instances := [], pipelines := [], projects := [], applications := [],
    deploymentGroups := [], outputs := [] }

/-- Role declared under `id`, if any (the first one declared). -/
def Stack.findRole (self : Stack) (id : ConstructId) : Option Role :=
  self.roles.find? (fun r => r.id = id)

/-- Vpc declared under `id`, if any. -/
def Stack.findVpc (self : Stack) (id : ConstructId) : Option Vpc :=
  self.vpcs.find? (fun v => v.id = id)

/-- Security group declared under `id`, if any. -/
def Stack.findSecurityGroup (self : Stack) (id : ConstructId) : Option SecurityGroup :=
  self.securityGroups.find? (fun g => g.id = id)

/-- Instance declared under `id`, if any. -/
def Stack.findInstance (self : Stack) (id : ConstructId) : Option Instance :=
  self.instances.find? (fun i => i.id = id)

/-- Pipeline whose `pipelineName` is `name`, if any. -/
def Stack.findPipelineNamed (self : Stack) (name : String) : Option Pipeline :=
  self.pipelines.find? (fun p => p.pipelineName = name)

/-! ## The SDK calls the constructor makes -/

/-- Constructor `new Role(this, id, props)`: declares the role, no policy attached yet. -/
def Role.new (self : Stack) (id : ConstructId) (props : RoleProps) : Stack × ConstructId :=
  ({ self with roles := self.roles ++
      [{ id := id, assumedBy := props.assumedBy, managedPolicies := [] }] }, id)

/-- Method `role.addManagedPolicy(policy)`: attaches the policy after those already attached. -/
def Role.addManagedPolicy (self : Stack) (role : ConstructId) (policy : ManagedPolicy) : Stack :=
  { self with roles := self.roles.map (fun r =>
      if r.id = role then { r with managedPolicies := r.managedPolicies ++ [policy] } else r) }

/-- Constructor `new Vpc(this, id, props)`. -/
def Vpc.new (self : Stack) (id : ConstructId) (props : VpcProps) : Stack × ConstructId :=
  ({ self with vpcs := self.vpcs ++
      [{ id := id, subnetConfiguration := props.subnetConfiguration }] }, id)

/-- Constructor `new SecurityGroup(this, id, props)`: no ingress rule yet. -/
def SecurityGroup.new (self : Stack) (id : ConstructId) (props : SecurityGroupProps) :
    Stack × ConstructId :=
  ({ self with securityGroups := self.securityGroups ++
      [{ id := id, vpc := props.vpc, description := props.description,
         allowAllOutbound := props.allowAllOutbound, ingressRules := [] }] }, id)

/-- Method `securityGroup.addIngressRule(peer, connection)`. -/
def SecurityGroup.addIngressRule (self : Stack) (securityGroup : ConstructId)
    (peer : Peer) (connection : Port) : Stack :=
  { self with securityGroups := self.securityGroups.map (fun g =>
      if g.id = securityGroup then { g with ingressRules := g.ingressRules ++ [(peer, connection)] }
      else g) }

/-- Constructor `new Instance(this, id, props)`: no user data and no tag yet. -/
def Instance.new (self : Stack) (id : ConstructId) (props : InstanceProps) : Stack × ConstructId :=
  ({ self with instances := self.instances ++
      [{ id := id, vpc := props.vpc, instanceType := props.instanceType,
         machineImage := props.machineImage, securityGroup := props.securityGroup,
         role := props.role, userData := [], tags := [] }] }, id)

/-- Method `instance.addUserData(command)`: one more user data entry, kept as given. -/
def Instance.addUserData (self : Stack) (instance_ : ConstructId) (command : String) : Stack :=
  { self with instances := self.instances.map (fun i =>
      if i.id = instance_ then { i with userData := i.userData ++ [command] } else i) }

/-- Call `cdk.Tags.of(target).add(key, value)` for an instance `target`. -/
def Tags.add (self : Stack) (target : ConstructId) (key value : String) : Stack :=
  { self with instances := self.instances.map (fun i =>
      if i.id = target then { i with tags := i.tags ++ [(key, value)] } else i) }

/-- Constructor `new Pipeline(this, id, props)`: no stage yet. -/
def Pipeline.new (self : Stack) (id : ConstructId) (props : PipelineProps) : Stack × ConstructId :=
  ({ self with pipelines := self.pipelines ++
      [{ id := id, pipelineName := props.pipelineName,
         crossAccountKeys := props.crossAccountKeys, stages := [] }] }, id)

/-- Method `pipeline.addStage(options)`: a new last stage without actions. -/
def Pipeline.addStage (self : Stack) (pipeline : ConstructId) (options : StageOptions) :
    Stack × StageRef :=
  ({ self with pipelines := self.pipelines.map (fun p =>
      if p.id = pipeline then
        { p with stages := p.stages ++ [{ stageName := options.stageName, actions := [] }] }
      else p) },
   { pipeline := pipeline, stageName := options.stageName })

/-- Method `stage.addAction(action)`: a new last action of that stage. -/
def Stage.addAction (self : Stack) (stage : StageRef) (action : Action) : Stack :=
  { self with pipelines := self.pipelines.map (fun p =>
      if p.id = stage.pipeline then
        { p with stages := p.stages.map (fun s =>
            if s.stageName = stage.stageName then { s with actions := s.actions ++ [action] }
            else s) }
      else p) }

/-- Constructor `new PipelineProject(this, id, props)`. -/
def PipelineProject.new (self : Stack) (id : ConstructId) (props : PipelineProjectProps) :
    Stack × ConstructId :=
  ({ self with projects := self.projects ++ [{ id := id, buildImage := props.buildImage }] }, id)

/-- Constructor `new ServerApplication(this, id, props)`. -/
def ServerApplication.new (self : Stack) (id : ConstructId) (props : ServerApplicationProps) :
    Stack × ConstructId :=
  ({ self with applications := self.applications ++
      [{ id := id, applicationName := props.applicationName }] }, id)

/-- Constructor `new ServerDeploymentGroup(this, id, props)`. -/
def ServerDeploymentGroup.new (self : Stack) (id : ConstructId)
    (props : ServerDeploymentGroupProps) : Stack × ConstructId :=
  ({ self with deploymentGroups := self.deploymentGroups ++
      [{ id := id, application := props.application,
         deploymentGroupName := props.deploymentGroupName,
         installAgent := props.installAgent, ec2InstanceTags := props.ec2InstanceTags }] }, id)

/-- Constructor `new cdk.CfnOutput(this, id, { value })`. -/
def CfnOutput.new (self : Stack) (id : ConstructId) (value : Value) : Stack :=
  { self with outputs := self.outputs ++ [{ id := id, value := value }] }

/-! ## fs -/

/-- Error thrown by a failed file read (`code` as in `ENOENT`, `EACCES`). -/
structure FsError where
  code : String
  path : String
  deriving DecidableEq, Repr

/-- File system as seen at configuration-build time: what reading `path` with
`encoding` gives. -/
structure FileSystem where
  read : (path : String) → (encoding : String) → Except FsError String

/-- Call `readFileSync(path, encoding)`. -/
def readFileSync (fs : FileSystem) (path : String) (encoding : String) : Except FsError String :=
  fs.read path encoding

/-! ## lib/ec2-cdk-stack.js -/

/-- How a run of the constructor ends: it returns the stack it built, or an
exception leaves it, with the stack as it was when the exception was raised. -/
inductive Completion
  | returned (self : Stack)
  | threw (error : FsError) (self : Stack)

/-- Stack a run of the constructor ends with. -/
def Completion.stack : Completion → Stack
  | .returned self => self
  | .threw _ self => self

/-- Local variables of the constructor right before `new Instance(...)`
(source line 63) is evaluated. -/
structure Ec2CdkStack.Frame where
  self : Stack
  webServerRole : ConstructId
  vpc : ConstructId
  webSg : ConstructId
  ami : AmazonLinuxImage

/-- Source lines 15 to 61 of `Ec2CdkStack.constructor`: the role with its
managed policies, the VPC, the security group with its ingress rule, the AMI. -/
def Ec2CdkStack.beforeInstance (scope : Construct) (id : String) (props : Option StackProps) :
    Ec2CdkStack.Frame :=
  let self := Stack.super scope id props
  let (self, webServerRole) := Role.new self "ec2Role"
    { assumedBy := ServicePrincipal.mk "ec2.amazonaws.com" }
  let self := Role.addManagedPolicy self webServerRole
    (ManagedPolicy.fromAwsManagedPolicyName "AmazonSSMManagedInstanceCore")
  let self := Role.addManagedPolicy self webServerRole
    (ManagedPolicy.fromAwsManagedPolicyName "service-role/AmazonEC2RoleforAWSCodeDeploy")
  let (self, vpc) := Vpc.new self "main_vpc"
    { subnetConfiguration := [
        { cidrMask := 24, name := "pub01", subnetType := SubnetType.PUBLIC },
        { cidrMask := 24, name := "pub02", subnetType := SubnetType.PUBLIC },
        { cidrMask := 24, name := "pub03", subnetType := SubnetType.PUBLIC } ] }
  let (self, webSg) := SecurityGroup.new self "web_sg"
    { vpc := vpc,
      description := "Allows Inbound HTTP traffic to the web server.",
      allowAllOutbound := true }
  let self := SecurityGroup.addIngressRule self webSg Peer.anyIpv4 (Port.tcp 80)
  let ami : AmazonLinuxImage :=
    { generation := AmazonLinuxGeneration.AMAZON_LINUX_2023,
      cpuType := AmazonLinuxCpuType.X86_64 }
  { self := self, webServerRole := webServerRole, vpc := vpc, webSg := webSg, ami := ami }

/-- Source lines 63 to 145 of `Ec2CdkStack.constructor`, run from the local
variables `frame`: the instance, its user data read from disk, its tags, the
pipeline with its stages and actions, the deployment group, the output. -/
def Ec2CdkStack.fromInstance (fs : FileSystem) (frame : Ec2CdkStack.Frame) : Completion :=
  let (self, webServer) := Instance.new frame.self "web_server"
    { vpc := frame.vpc,
      instanceType := InstanceType.of InstanceClass.T3 InstanceSize.MICRO,
      machineImage := frame.ami,
      securityGroup := frame.webSg,
      role := frame.webServerRole }
  match readFileSync fs "./assets/configure_amz_linux_sample_app.sh" "utf-8" with
  | .error e => Completion.threw e self
  | .ok webSGUserData =>
    let self := Instance.addUserData self webServer webSGUserData
    let self := Tags.add self webServer "application-name" "python-web"
    let self := Tags.add self webServer "stage" "prod"
    let (self, pipeline) := Pipeline.new self "python_web_pipeline"
      { pipelineName := "python-webApp", crossAccountKeys := false }
    let (self, sourceStage) := Pipeline.addStage self pipeline { stageName := "Source" }
    let (self, buildStage) := Pipeline.addStage self pipeline { stageName := "Build" }
    let (self, deployStage) := Pipeline.addStage self pipeline { stageName := "Deploy" }
    let sourceOutput : Artifact := { serial := 0 }
    let githubSourceAction := Action.GitHubSourceAction
      { actionName := "GithubSource",
        oauthToken := SecretValue.secretsManager "github-oauth-token",
        owner := "Aakarshak-TNM",
        repo := "sample-python-web-app",
        branch := "main",
        output := sourceOutput }
    let self := Stage.addAction self sourceStage githubSourceAction
    let (self, pythonTestProject) := PipelineProject.new self "pythonTestProject"
      { buildImage := LinuxBuildImage.AMAZON_LINUX_2_5 }
    let pythonTestOutput : Artifact := { serial := 1 }
    let pythonTestAction := Action.CodeBuildAction
      { actionName := "TestPython",
        project := pythonTestProject,
        input := sourceOutput,
        outputs := [pythonTestOutput] }
    let self := Stage.addAction self buildStage pythonTestAction
    let (self, pythonDeployApplication) := ServerApplication.new self "python_deploy_application"
      { applicationName := "python-webApp" }
    let (self, pythonServerDeploymentGroup) := ServerDeploymentGroup.new self "PythonAppDeployGroup"
      { application := pythonDeployApplication,
        deploymentGroupName := "PythonAppDeploymentGroup",
        installAgent := true,
        ec2InstanceTags := InstanceTagSet.mk
          [[("application-name", ["python-web"]), ("stage", ["prod", "stage"])]] }
    let pythonDeployAction := Action.CodeDeployServerDeployAction
      { actionName := "PythonAppDeployment",
        input := sourceOutput,
        deploymentGroup := pythonServerDeploymentGroup }
    let self := Stage.addAction self deployStage pythonDeployAction
    let self := CfnOutput.new self "IP Address" (Instance.instancePublicIp webServer)
    Completion.returned self

/-- Constructor `new Ec2CdkStack(scope, id, props)`, run against the file system `fs`. -/
def Ec2CdkStack (fs : FileSystem) (scope : Construct) (id : String)
    (props : Option StackProps) : Completion :=
  Ec2CdkStack.fromInstance fs (Ec2CdkStack.beforeInstance scope id props)

/-- File system in which every read gives `content`. -/
def FileSystem.withContent (content : String) : FileSystem :=
  { read := fun _ _ => Except.ok content }

/-- File system in which every read fails with `error`. -/
def FileSystem.failing (error : FsError) : FileSystem :=
  { read := fun _ _ => Except.error error }

/-- Props of every GitHub source action held by a stage of a pipeline of the stack. -/
def Stack.gitHubSourceActions (self : Stack) : List GitHubSourceActionProps :=
  (self.pipelines.map (fun p => (p.stages.map (fun s => s.actions.filterMap (fun a =>
    match a with
    | Action.GitHubSourceAction props => some props
    | _ => none))).flatten)).flatten

/-! ## Lemmas shared by the proofs: the two branches of the file read -/

theorem Ec2CdkStack.fromInstance_read_ok (fs : FileSystem) (frame : Ec2CdkStack.Frame)
    (s : String)
    (h : readFileSync fs "./assets/configure_amz_linux_sample_app.sh" "utf-8" = Except.ok s) :
    Ec2CdkStack.fromInstance fs frame
      = Ec2CdkStack.fromInstance (FileSystem.withContent s) frame := by
  unfold Ec2CdkStack.fromInstance
  rw [h]
  rfl

theorem Ec2CdkStack.fromInstance_read_error (fs : FileSystem) (frame : Ec2CdkStack.Frame)
    (e : FsError)
    (h : readFileSync fs "./assets/configure_amz_linux_sample_app.sh" "utf-8" = Except.error e) :
    Ec2CdkStack.fromInstance fs frame
      = Ec2CdkStack.fromInstance (FileSystem.failing e) frame := by
  unfold Ec2CdkStack.fromInstance
  rw [h]
  rfl

theorem Ec2CdkStack.read_ok (fs : FileSystem) (scope : Construct) (id : String)
    (props : Option StackProps) (s : String)
    (h : readFileSync fs "./assets/configure_amz_linux_sample_app.sh" "utf-8" = Except.ok s) :
    Ec2CdkStack fs scope id props = Ec2CdkStack (FileSystem.withContent s) scope id props :=
  Ec2CdkStack.fromInstance_read_ok fs _ s h

theorem Ec2CdkStack.read_error (fs : FileSystem) (scope : Construct) (id : String)
    (props : Option StackProps) (e : FsError)
    (h : readFileSync fs "./assets/configure_amz_linux_sample_app.sh" "utf-8" = Except.error e) :
    Ec2CdkStack fs scope id props = Ec2CdkStack (FileSystem.failing e) scope id props :=
  Ec2CdkStack.fromInstance_read_error fs _ e h

/-- Every run is the run on one of the two canonical file systems: the one
giving the content that was read, or the one failing with the error raised. -/
theorem Ec2CdkStack.read_cases (fs : FileSystem) (scope : Construct) (id : String)
    (props : Option StackProps) :
    (∃ s, Ec2CdkStack fs scope id props = Ec2CdkStack (FileSystem.withContent s) scope id props) ∨
    (∃ e, Ec2CdkStack fs scope id props = Ec2CdkStack (FileSystem.failing e) scope id props) := by
  cases h : readFileSync fs "./assets/configure_amz_linux_sample_app.sh" "utf-8" with
  | error e => exact Or.inr ⟨e, Ec2CdkStack.read_error fs scope id props e h⟩
  | ok s => exact Or.inl ⟨s, Ec2CdkStack.read_ok fs scope id props s h⟩

/-! ## The claims -/

/-- C1: whenever the bootstrap file is read successfully, for every scope, id
and props the constructor returns a stack whose outputs are exactly one
output, with logical id "IP Address" and as value the public IP attribute of
the instance declared as web_server in that same stack. -/
theorem C1_single_output_is_web_server_public_ip (fs : FileSystem) (scope : Construct)
    (id : String) (props : Option StackProps) (s : String)
    (h : readFileSync fs "./assets/configure_amz_linux_sample_app.sh" "utf-8" = Except.ok s) :
    ∃ self webServer,
      Ec2CdkStack fs scope id props = Completion.returned self ∧
      self.findInstance "web_server" = some webServer ∧
      self.outputs = [{ id := "IP Address", value := Instance.instancePublicIp webServer.id }] ∧
      Instance.instancePublicIp webServer.id = Value.getAtt "web_server" "PublicIp" ∧
      self.outputs.length = 1 := by
  rw [Ec2CdkStack.read_ok fs scope id props s h]
  exact ⟨_, _, rfl, rfl, rfl, rfl, rfl⟩

theorem C1_single_output_witness :
    readFileSync (FileSystem.withContent "#!/bin/bash\nyum update -y\n")
        "./assets/configure_amz_linux_sample_app.sh" "utf-8"
      = Except.ok "#!/bin/bash\nyum update -y\n" ∧
    ∃ self webServer,
      Ec2CdkStack (FileSystem.withContent "#!/bin/bash\nyum update -y\n")
        { path := ["App"] } "Ec2CdkStack" none = Completion.returned self ∧
      self.findInstance "web_server" = some webServer ∧
      self.outputs = [{ id := "IP Address", value := Instance.instancePublicIp webServer.id }] ∧
      Instance.instancePublicIp webServer.id = Value.getAtt "web_server" "PublicIp" ∧
      self.outputs.length = 1 :=
  ⟨rfl, C1_single_output_is_web_server_public_ip
    (FileSystem.withContent "#!/bin/bash\nyum update -y\n") { path := ["App"] } "Ec2CdkStack" none
    "#!/bin/bash\nyum update -y\n" rfl⟩

/-- C2: whatever the file read gives, the stack has one Vpc, main_vpc, and the
subnet configuration passed to it has exactly 3 entries, each of subnet type
PUBLIC with cidrMask 24, named pub01, pub02, pub03, pairwise distinct; so no
private or isolated entry is present. -/
theorem C2_main_vpc_three_public_subnets (fs : FileSystem) (scope : Construct)
    (id : String) (props : Option StackProps) :
    ∃ vpc : Vpc,
      (Ec2CdkStack fs scope id props).stack.vpcs = [vpc] ∧
      (Ec2CdkStack fs scope id props).stack.findVpc "main_vpc" = some vpc ∧
      vpc.subnetConfiguration.length = 3 ∧
      (∀ c ∈ vpc.subnetConfiguration,
        c.subnetType = SubnetType.PUBLIC ∧ c.cidrMask = 24 ∧
        c.subnetType ≠ SubnetType.PRIVATE_WITH_EGRESS ∧
        c.subnetType ≠ SubnetType.PRIVATE_ISOLATED) ∧
      vpc.subnetConfiguration.map (fun c => c.name) = ["pub01", "pub02", "pub03"] ∧
      (vpc.subnetConfiguration.map (fun c => c.name)).Nodup := by
  rcases Ec2CdkStack.read_cases fs scope id props with ⟨s, h⟩ | ⟨e, h⟩ <;> rw [h] <;>
    refine ⟨_, rfl, rfl, rfl, ?_, rfl, by decide⟩ <;>
    intro c hc <;>
    simp only [List.mem_cons, List.mem_singleton, List.not_mem_nil, or_false] at hc <;>
    rcases hc with rfl | rfl | rfl <;> simp

/-- C3: whatever the file read gives, the stack has one security group,
web_sg; the ingress rules added to it are exactly one rule, peer any IPv4 with
port TCP 80; and the security group passed to the web_server instance is that
one. -/
theorem C3_web_sg_only_http_ingress (fs : FileSystem) (scope : Construct)
    (id : String) (props : Option StackProps) :
    ∃ (webSg : SecurityGroup) (webServer : Instance),
      (Ec2CdkStack fs scope id props).stack.securityGroups = [webSg] ∧
      webSg.id = "web_sg" ∧
      webSg.ingressRules = [(Peer.anyIpv4, Port.tcp 80)] ∧
      webSg.ingressRules.length = 1 ∧
      (Ec2CdkStack fs scope id props).stack.findInstance "web_server" = some webServer ∧
      webServer.securityGroup = webSg.id ∧
      (Ec2CdkStack fs scope id props).stack.findSecurityGroup webServer.securityGroup
        = some webSg := by
  rcases Ec2CdkStack.read_cases fs scope id props with ⟨s, h⟩ | ⟨e, h⟩ <;> rw [h] <;>
    exact ⟨_, _, rfl, rfl, rfl, rfl, rfl, rfl, rfl⟩

/-- C4 on the code: whatever the file read gives, the machine image passed to
the web_server instance has generation AMAZON_LINUX_2023, which is not
AMAZON_LINUX_2, and cpuType X86_64. -/
theorem C4_machine_image_generation_is_2023 (fs : FileSystem) (scope : Construct)
    (id : String) (props : Option StackProps) :
    ∃ webServer : Instance,
      (Ec2CdkStack fs scope id props).stack.findInstance "web_server" = some webServer ∧
      webServer.machineImage.generation = AmazonLinuxGeneration.AMAZON_LINUX_2023 ∧
      webServer.machineImage.generation ≠ AmazonLinuxGeneration.AMAZON_LINUX_2 ∧
      webServer.machineImage.cpuType = AmazonLinuxCpuType.X86_64 := by
  rcases Ec2CdkStack.read_cases fs scope id props with ⟨s, h⟩ | ⟨e, h⟩ <;> rw [h] <;>
    refine ⟨_, rfl, rfl, ?_, rfl⟩ <;>
    show AmazonLinuxGeneration.AMAZON_LINUX_2023 ≠ AmazonLinuxGeneration.AMAZON_LINUX_2 <;>
    decide

/-- C5: the constructor runs its lines from `new Instance` on in the state
`beforeInstance` leaves; in that state the role handle is ec2Role, a role
assumable by the service principal ec2.amazonaws.com with exactly the managed
policies AmazonSSMManagedInstanceCore and
service-role/AmazonEC2RoleforAWSCodeDeploy, in this order; that handle is the
role of the web_server instance, and the role is unchanged at the end. -/
theorem C5_web_server_role_and_policies (fs : FileSystem) (scope : Construct)
    (id : String) (props : Option StackProps) :
    Ec2CdkStack fs scope id props
      = Ec2CdkStack.fromInstance fs (Ec2CdkStack.beforeInstance scope id props) ∧
    (Ec2CdkStack.beforeInstance scope id props).webServerRole = "ec2Role" ∧
    (Ec2CdkStack.beforeInstance scope id props).self.findRole
        (Ec2CdkStack.beforeInstance scope id props).webServerRole
      = some { id := "ec2Role",
               assumedBy := { service := "ec2.amazonaws.com" },
               managedPolicies := [
                 { managedPolicyName := "AmazonSSMManagedInstanceCore" },
                 { managedPolicyName := "service-role/AmazonEC2RoleforAWSCodeDeploy" } ] } ∧
    ∃ webServer : Instance,
      (Ec2CdkStack fs scope id props).stack.findInstance "web_server" = some webServer ∧
      webServer.role = (Ec2CdkStack.beforeInstance scope id props).webServerRole ∧
      (Ec2CdkStack fs scope id props).stack.findRole webServer.role
        = (Ec2CdkStack.beforeInstance scope id props).self.findRole
            (Ec2CdkStack.beforeInstance scope id props).webServerRole := by
  refine ⟨rfl, rfl, rfl, ?_⟩
  rcases Ec2CdkStack.read_cases fs scope id props with ⟨s, h⟩ | ⟨e, h⟩ <;> rw [h] <;>
    exact ⟨_, rfl, rfl, rfl⟩

/-- C6: whenever the bootstrap file is read successfully, the constructor
returns a stack whose only pipeline is python-webApp, with exactly the stages
Source, Build, Deploy in this order, each holding exactly one action: the
GitHub source action GithubSource, the CodeBuild action TestPython, the
CodeDeploy server deploy action PythonAppDeployment. -/
theorem C6_pipeline_three_stages_one_action_each (fs : FileSystem) (scope : Construct)
    (id : String) (props : Option StackProps) (s : String)
    (h : readFileSync fs "./assets/configure_amz_linux_sample_app.sh" "utf-8" = Except.ok s) :
    ∃ (self : Stack) (pipeline : Pipeline),
      Ec2CdkStack fs scope id props = Completion.returned self ∧
      self.pipelines = [pipeline] ∧
      self.findPipelineNamed "python-webApp" = some pipeline ∧
      pipeline.stages.map (fun stage => stage.stageName) = ["Source", "Build", "Deploy"] ∧
      pipeline.stages.map (fun stage => stage.actions.map Action.actionName)
        = [["GithubSource"], ["TestPython"], ["PythonAppDeployment"]] ∧
      pipeline.stages.map (fun stage => stage.actions) =
        [ [Action.GitHubSourceAction
            { actionName := "GithubSource",
              oauthToken := SecretValue.secretsManager "github-oauth-token",
              owner := "Aakarshak-TNM",
              repo := "sample-python-web-app",
              branch := "main",
              output := { serial := 0 } }],
          [Action.CodeBuildAction
            { actionName := "TestPython",
              project := "pythonTestProject",
              input := { serial := 0 },
              outputs := [{ serial := 1 }] }],
          [Action.CodeDeployServerDeployAction
            { actionName := "PythonAppDeployment",
              input := { serial := 0 },
              deploymentGroup := "PythonAppDeployGroup" }] ] ∧
      (∀ stage ∈ pipeline.stages, stage.actions.length = 1) := by
  rw [Ec2CdkStack.read_ok fs scope id props s h]
  refine ⟨_, _, rfl, rfl, rfl, rfl, rfl, rfl, ?_⟩
  intro stage hstage
  exact of_decide_eq_true
    ((List.all_eq_true (p := fun st : Stage => decide (st.actions.length = 1))).1
      (by rfl) stage hstage)

theorem C6_pipeline_witness :
    readFileSync (FileSystem.withContent "echo hello")
        "./assets/configure_amz_linux_sample_app.sh" "utf-8" = Except.ok "echo hello" ∧
    ∃ (self : Stack) (pipeline : Pipeline),
      Ec2CdkStack (FileSystem.withContent "echo hello") { path := [] } "Stack1" none
        = Completion.returned self ∧
      self.pipelines = [pipeline] ∧
      self.findPipelineNamed "python-webApp" = some pipeline ∧
      pipeline.stages.map (fun stage => stage.stageName) = ["Source", "Build", "Deploy"] ∧
      pipeline.stages.map (fun stage => stage.actions.map Action.actionName)
        = [["GithubSource"], ["TestPython"], ["PythonAppDeployment"]] ∧
      pipeline.stages.map (fun stage => stage.actions) =
        [ [Action.GitHubSourceAction
            { actionName := "GithubSource",
              oauthToken := SecretValue.secretsManager "github-oauth-token",
              owner := "Aakarshak-TNM",
              repo := "sample-python-web-app",
              branch := "main",
              output := { serial := 0 } }],
          [Action.CodeBuildAction
            { actionName := "TestPython",
              project := "pythonTestProject",
              input := { serial := 0 },
              outputs := [{ serial := 1 }] }],
          [Action.CodeDeployServerDeployAction
            { actionName := "PythonAppDeployment",
              input := { serial := 0 },
              deploymentGroup := "PythonAppDeployGroup" }] ] ∧
      (∀ stage ∈ pipeline.stages, stage.actions.length = 1) :=
  ⟨rfl, C6_pipeline_three_stages_one_action_each (FileSystem.withContent "echo hello")
    { path := [] } "Stack1" none "echo hello" rfl⟩

/-- C7: for every content s the bootstrap file is read as, the constructor
returns a stack whose only instance is web_server, and the user data added to
it is exactly the one entry s, unmodified. -/
theorem C7_user_data_is_file_content (fs : FileSystem) (scope : Construct)
    (id : String) (props : Option StackProps) (s : String)
    (h : readFileSync fs "./assets/configure_amz_linux_sample_app.sh" "utf-8" = Except.ok s) :
    ∃ (self : Stack) (webServer : Instance),
      Ec2CdkStack fs scope id props = Completion.returned self ∧
      self.instances = [webServer] ∧
      webServer.id = "web_server" ∧
      webServer.userData = [s] := by
  rw [Ec2CdkStack.read_ok fs scope id props s h]
  exact ⟨_, _, rfl, rfl, rfl, rfl⟩

theorem C7_user_data_witness :
    readFileSync (FileSystem.withContent "  #!/bin/bash\n\nexport APP=$APP \n")
        "./assets/configure_amz_linux_sample_app.sh" "utf-8"
      = Except.ok "  #!/bin/bash\n\nexport APP=$APP \n" ∧
    ∃ (self : Stack) (webServer : Instance),
      Ec2CdkStack (FileSystem.withContent "  #!/bin/bash\n\nexport APP=$APP \n")
        { path := ["App"] } "Ec2CdkStack" none = Completion.returned self ∧
      self.instances = [webServer] ∧
      webServer.id = "web_server" ∧
      webServer.userData = ["  #!/bin/bash\n\nexport APP=$APP \n"] :=
  ⟨rfl, C7_user_data_is_file_content
    (FileSystem.withContent "  #!/bin/bash\n\nexport APP=$APP \n")
    { path := ["App"] } "Ec2CdkStack" none "  #!/bin/bash\n\nexport APP=$APP \n" rfl⟩

/-- C8: any two runs of the constructor in which the bootstrap file is read
successfully, whatever their scope, id, props and file content, return stacks
holding the same single GitHub source action; its OAuth token is the Secrets
Manager reference named github-oauth-token, not a literal, and its repository
is owner Aakarshak-TNM, repo sample-python-web-app, branch main. -/
theorem C8_github_source_token_and_repository
    (fs₁ : FileSystem) (scope₁ : Construct) (id₁ : String) (props₁ : Option StackProps)
    (s₁ : String)
    (fs₂ : FileSystem) (scope₂ : Construct) (id₂ : String) (props₂ : Option StackProps)
    (s₂ : String)
    (h₁ : readFileSync fs₁ "./assets/configure_amz_linux_sample_app.sh" "utf-8" = Except.ok s₁)
    (h₂ : readFileSync fs₂ "./assets/configure_amz_linux_sample_app.sh" "utf-8" = Except.ok s₂) :
    ∃ (self₁ self₂ : Stack) (source : GitHubSourceActionProps),
      Ec2CdkStack fs₁ scope₁ id₁ props₁ = Completion.returned self₁ ∧
      Ec2CdkStack fs₂ scope₂ id₂ props₂ = Completion.returned self₂ ∧
      self₁.gitHubSourceActions = [source] ∧
      self₂.gitHubSourceActions = [source] ∧
      source.actionName = "GithubSource" ∧
      source.oauthToken = SecretValue.secretsManager "github-oauth-token" ∧
      source.oauthToken.isLiteral = false ∧
      source.owner = "Aakarshak-TNM" ∧
      source.repo = "sample-python-web-app" ∧
      source.branch = "main" := by
  rw [Ec2CdkStack.read_ok fs₁ scope₁ id₁ props₁ s₁ h₁,
    Ec2CdkStack.read_ok fs₂ scope₂ id₂ props₂ s₂ h₂]
  exact ⟨_, _, _, rfl, rfl, rfl, rfl, rfl, rfl, rfl, rfl, rfl, rfl⟩

theorem C8_github_source_witness :
    readFileSync (FileSystem.withContent "echo one")
        "./assets/configure_amz_linux_sample_app.sh" "utf-8" = Except.ok "echo one" ∧
    readFileSync (FileSystem.withContent "ghp_0123456789")
        "./assets/configure_amz_linux_sample_app.sh" "utf-8" = Except.ok "ghp_0123456789" ∧
    ∃ (self₁ self₂ : Stack) (source : GitHubSourceActionProps),
      Ec2CdkStack (FileSystem.withContent "echo one") { path := ["App"] } "Prod" none
        = Completion.returned self₁ ∧
      Ec2CdkStack (FileSystem.withContent "ghp_0123456789") { path := ["Other", "Nested"] } "Dev"
          (some { stackName := some "dev", description := none, account := none,
                  region := some "eu-west-1" })
        = Completion.returned self₂ ∧
      self₁.gitHubSourceActions = [source] ∧
      self₂.gitHubSourceActions = [source] ∧
      source.actionName = "GithubSource" ∧
      source.oauthToken = SecretValue.secretsManager "github-oauth-token" ∧
      source.oauthToken.isLiteral = false ∧
      source.owner = "Aakarshak-TNM" ∧
      source.repo = "sample-python-web-app" ∧
      source.branch = "main" :=
  ⟨rfl, rfl, C8_github_source_token_and_repository
    (FileSystem.withContent "echo one") { path := ["App"] } "Prod" none "echo one"
    (FileSystem.withContent "ghp_0123456789") { path := ["Other", "Nested"] } "Dev"
    (some { stackName := some "dev", description := none, account := none,
            region := some "eu-west-1" }) "ghp_0123456789" rfl rfl⟩

/-- C9: with the file read as a result that may fail and every SDK call
succeeding, the constructor throws exactly when the read fails; what it throws
is the error of the read; and the stack it leaves then has no pipeline, no
deployment group and no output declared, and no user data on its instance.
When the read succeeds the constructor returns. -/
theorem C9_fails_iff_read_fails (fs : FileSystem) (scope : Construct)
    (id : String) (props : Option StackProps) :
    ((∃ e self, Ec2CdkStack fs scope id props = Completion.threw e self) ↔
      (∃ e, readFileSync fs "./assets/configure_amz_linux_sample_app.sh" "utf-8"
        = Except.error e)) ∧
    (∀ e, readFileSync fs "./assets/configure_amz_linux_sample_app.sh" "utf-8" = Except.error e →
      ∃ self, Ec2CdkStack fs scope id props = Completion.threw e self) ∧
    (∀ e self, Ec2CdkStack fs scope id props = Completion.threw e self →
      readFileSync fs "./assets/configure_amz_linux_sample_app.sh" "utf-8" = Except.error e ∧
      self.pipelines = [] ∧ self.deploymentGroups = [] ∧ self.outputs = [] ∧
      (∀ i ∈ self.instances, i.userData = [])) ∧
    (∀ s, readFileSync fs "./assets/configure_amz_linux_sample_app.sh" "utf-8" = Except.ok s →
      ∃ self, Ec2CdkStack fs scope id props = Completion.returned self) := by
  have hok : ∀ s, readFileSync fs "./assets/configure_amz_linux_sample_app.sh" "utf-8"
      = Except.ok s → ∃ self, Ec2CdkStack fs scope id props = Completion.returned self := by
    intro s hs
    rw [Ec2CdkStack.read_ok fs scope id props s hs]
    exact ⟨_, rfl⟩
  have herr : ∀ e, readFileSync fs "./assets/configure_amz_linux_sample_app.sh" "utf-8"
      = Except.error e →
      ∃ self, Ec2CdkStack fs scope id props = Completion.threw e self ∧
        self.pipelines = [] ∧ self.deploymentGroups = [] ∧ self.outputs = [] ∧
        (∀ i ∈ self.instances, i.userData = []) := by
    intro e he
    rw [Ec2CdkStack.read_error fs scope id props e he]
    refine ⟨_, rfl, rfl, rfl, rfl, ?_⟩
    intro i hi
    exact of_decide_eq_true
      ((List.all_eq_true (p := fun j : Instance => decide (j.userData = []))).1 (by rfl) i hi)
  have hthrew : ∀ e self, Ec2CdkStack fs scope id props = Completion.threw e self →
      readFileSync fs "./assets/configure_amz_linux_sample_app.sh" "utf-8" = Except.error e ∧
      self.pipelines = [] ∧ self.deploymentGroups = [] ∧ self.outputs = [] ∧
      (∀ i ∈ self.instances, i.userData = []) := by
    intro e self hrun
    cases hread : readFileSync fs "./assets/configure_amz_linux_sample_app.sh" "utf-8" with
    | ok s =>
      obtain ⟨self0, h0⟩ := hok s hread
      rw [h0] at hrun
      cases hrun
    | error e0 =>
      obtain ⟨self0, h0, hrest⟩ := herr e0 hread
      rw [h0] at hrun
      cases hrun
      exact ⟨rfl, hrest⟩
  refine ⟨⟨?_, ?_⟩, ?_, hthrew, hok⟩
  · rintro ⟨e, self, hrun⟩
    exact ⟨e, (hthrew e self hrun).1⟩
  · rintro ⟨e, he⟩
    obtain ⟨self, hrun, _⟩ := herr e he
    exact ⟨e, self, hrun⟩
  · intro e he
    obtain ⟨self, hrun, _⟩ := herr e he
    exact ⟨self, hrun⟩

theorem C9_fails_witness :
    readFileSync
        (FileSystem.failing
          { code := "ENOENT", path := "./assets/configure_amz_linux_sample_app.sh" })
        "./assets/configure_amz_linux_sample_app.sh" "utf-8"
      = Except.error { code := "ENOENT", path := "./assets/configure_amz_linux_sample_app.sh" } ∧
    ∃ self,
      Ec2CdkStack
          (FileSystem.failing
            { code := "ENOENT", path := "./assets/configure_amz_linux_sample_app.sh" })
          { path := ["App"] } "Ec2CdkStack" none
        = Completion.threw
            { code := "ENOENT", path := "./assets/configure_amz_linux_sample_app.sh" } self :=
  ⟨rfl, (C9_fails_iff_read_fails
    (FileSystem.failing
      { code := "ENOENT", path := "./assets/configure_amz_linux_sample_app.sh" })
    { path := ["App"] } "Ec2CdkStack" none).2.1
    { code := "ENOENT", path := "./assets/configure_amz_linux_sample_app.sh" } rfl⟩

end CDK
